import Mathlib

/-!
Shallow embedding of the evdev plugin (`appdaemon/plugins/evdev/evdevplugin.py`).

Python dictionaries are modelled as association lists with unique keys,
Python values by the inductive `PyVal`, and a raised Python exception by the
`PyResult.exc` constructor.  A method that mutates `self` is modelled as a
function returning a `MethodResult`: the state after the call (Python has no
rollback, so mutations made before a raise persist), the list of externally
observable actions the call performed (device opens, grabs/ungrabs, task
starts, future cancellations, log warnings), and the returned value or the
escaping exception.
-/

namespace Evdev

/-- Python values that occur in the plugin: strings, integers, `None`,
asyncio futures (identified by a creation counter) and open
`evdev.InputDevice` resources (tagged with the identifier they were opened
from). -/
inductive PyVal where
  | str : String → PyVal
  | int : Int → PyVal
  | pnone : PyVal
  | future : Nat → PyVal
  | inputDevice : PyVal → PyVal
deriving DecidableEq, Repr

/-- The Python exceptions the modelled code can raise. -/
inductive PyErr where
  | keyError : String → PyErr
  | attributeError : String → PyErr
  | valueError : String → PyErr
  | osError : String → PyErr
  | indexError : PyErr
deriving DecidableEq, Repr

/-- Result of running a piece of Python code: a value, or a raised
exception propagating out. -/
inductive PyResult (α : Type) where
  | ok : α → PyResult α
  | exc : PyErr → PyResult α
deriving DecidableEq, Repr

/-- `True` exactly when the code returned normally (no exception escaped). -/
def resultReturned {α : Type} : PyResult α → Bool
  | .ok _ => true
  | .exc _ => false

/-- A string-keyed Python dict of `PyVal`s (used for the state table, the
per-device session records and service-call kwargs). -/
abbrev Dict := List (String × PyVal)

/-- `k in d` / `d.get(k)` for a dict. -/
def dictLookup : Dict → String → Option PyVal
  | [], _ => none
  | (k, v) :: rest, key => if k = key then some v else dictLookup rest key

/-- `d[k] = v`: overwrites an existing binding, appends otherwise. -/
def dictInsert : Dict → String → PyVal → Dict
  | [], key, v => [(key, v)]
  | (k, w) :: rest, key, v =>
    if k = key then (key, v) :: rest else (k, w) :: dictInsert rest key v

/-- `d[k]`: raises `KeyError(k)` when the key is absent. -/
def dictGetItem (d : Dict) (k : String) : PyResult PyVal :=
  match dictLookup d k with
  | some v => .ok v
  | none => .exc (.keyError k)

/-- The device-to-session map `evdev_device_to_future_map`: device
identifier → the dict `\x7b"future": ..., "evdev_device": ...\x7d` stored by
`subscribe`. -/
abbrev FutureMap := List (PyVal × Dict)

/-- Map insertion (`m[device] = entry`). -/
def mapInsert : FutureMap → PyVal → Dict → FutureMap
  | [], key, v => [(key, v)]
  | (k, w) :: rest, key, v =>
    if k = key then (key, v) :: rest else (k, w) :: mapInsert rest key v

/-- `m.pop(device, None)`: the popped entry (or `none`) and the map without
the key. -/
def mapPop : FutureMap → PyVal → Option Dict × FutureMap
  | [], _ => (none, [])
  | (k, v) :: rest, key =>
    if k = key then (some v, rest)
    else
      let (r, m) := mapPop rest key
      (r, (k, v) :: m)

/-- Externally observable side effects of the registry operations. -/
inductive Action where
  | openDevice : PyVal → Action
  | grabA : PyVal → Action
  | ungrab : PyVal → Action
  | startTask : Nat → Action
  | cancelFuture : Nat → Action
  | logWarning : String → Action
deriving DecidableEq, Repr

/-- `True` exactly for a grab acquisition. -/
def isGrab : Action → Bool
  | .grabA _ => true
  | _ => false

/-- The mutable fields of `EvdevPlugin` that the registry operations touch:
the `evdev_devices` list, the `evdev_device_to_future_map` dict, the `grab`
configuration flag, the `stopping` flag, and a counter supplying fresh
future identities for `asyncio.ensure_future`. -/
structure PluginState where
  evdev_devices : List PyVal
  evdev_device_to_future_map : FutureMap
  evdev_grab : Bool
  stopping : Bool
  next_task : Nat
deriving DecidableEq, Repr

/-- State right after `__init__`: `devices` and `grab` read from the
configuration (defaults `[]` and `True`), the future map empty. -/
def initState (devices : List PyVal) (grab : Bool) : PluginState :=
  { evdev_devices := devices
    evdev_device_to_future_map := []
    evdev_grab := grab
    stopping := false
    next_task := 0 }

/-- Outcome of one method call: the state left behind, the observable
actions performed in order, and the returned value or escaping exception. -/
structure MethodResult (α : Type) where
  state : PluginState
  actions : List Action
  result : PyResult α
deriving Repr

/-- `fut.cancel()`: only a future has a `cancel` method. -/
def cancelMethod : PyVal → PyResult Action
  | .future n => .ok (.cancelFuture n)
  | _ => .exc (.attributeError "cancel")

/-- `dev.ungrab()`: only an open `InputDevice` resource has an `ungrab`
method; in particular calling it on an identifier string raises
`AttributeError`. -/
def ungrabMethod : PyVal → PyResult Action
  | .inputDevice d => .ok (.ungrab d)
  | _ => .exc (.attributeError "ungrab")

/-- `EvdevPlugin.subscribe` (lines 87-96).  `openOk` is the environment's
verdict on `evdev.InputDevice(device)`: when `False` the constructor raises
the underlying I/O error, which propagates out of `subscribe`.  On the
fresh-device path the session record is stored under the dict keys
`"future"` and `"evdev_device"`; note that no `grab()` call occurs anywhere
in the method. -/
def subscribe (openOk : Bool) (st : PluginState) (device : PyVal) :
    MethodResult (Option PyVal) :=
  if device ∉ st.evdev_devices then
    if openOk then
      let fid := st.next_task
      { state :=
          { st with
            evdev_devices := st.evdev_devices ++ [device]
            evdev_device_to_future_map :=
              mapInsert st.evdev_device_to_future_map device
                [("future", PyVal.future fid),
                 ("evdev_device", PyVal.inputDevice device)]
            next_task := fid + 1 }
        actions := [.openDevice device, .startTask fid]
        result := .ok (some (PyVal.future fid)) }
    else
      { state := st
        actions := [.openDevice device]
        result := .exc (.osError "failed to open device") }
  else
    { state := st
      actions := [.logWarning "already_subscribed"]
      result := .ok none }

/-- `EvdevPlugin.unsubscribe` (lines 98-109).  After removing the device
from `evdev_devices` and popping the session record, the code reads the
record at key `"my_future"` (line 103) before cancelling and, when `grab`
is set, reads key `"evdev_device"` and calls `ungrab()` on it. -/
def unsubscribe (st : PluginState) (device : PyVal) : MethodResult Unit :=
  if device ∈ st.evdev_devices then
    let devices' := st.evdev_devices.erase device
    match mapPop st.evdev_device_to_future_map device with
    | (some entry, map') =>
      let st' := { st with
        evdev_devices := devices'
        evdev_device_to_future_map := map' }
      match dictGetItem entry "my_future" with
      | .exc e => { state := st', actions := [], result := .exc e }
      | .ok fut =>
        match cancelMethod fut with
        | .exc e => { state := st', actions := [], result := .exc e }
        | .ok cact =>
          if st.evdev_grab then
            match dictGetItem entry "evdev_device" with
            | .exc e => { state := st', actions := [cact], result := .exc e }
            | .ok dev =>
              match ungrabMethod dev with
              | .exc e => { state := st', actions := [cact], result := .exc e }
              | .ok uact =>
                { state := st', actions := [cact, uact], result := .ok () }
          else
            { state := st', actions := [cact], result := .ok () }
    | (none, map') =>
      { state := { st with
          evdev_devices := devices'
          evdev_device_to_future_map := map' }
        actions := [.logWarning "someone_else_unsubscribed"]
        result := .ok () }
  else
    { state := st, actions := [.logWarning "not_subscribed"], result := .ok () }

/-- `for device in self.evdev_devices: device.ungrab()` (lines 50-51): the
actions of the successful prefix, and the first raised exception if any. -/
def ungrabAll : List PyVal → List Action × Option PyErr
  | [] => ([], none)
  | d :: rest =>
    match ungrabMethod d with
    | .exc e => ([], some e)
    | .ok a =>
      let (as, r) := ungrabAll rest
      (a :: as, r)

/-- `EvdevPlugin.stop` (lines 45-51): sets `stopping`, then, when the grab
option is set, calls `ungrab()` on each element of `evdev_devices` — which
holds the device identifier strings, not the opened device resources.  No
session future is cancelled anywhere in the method. -/
def stop (st : PluginState) : MethodResult Unit :=
  let st' := { st with stopping := true }
  if st'.evdev_grab then
    match ungrabAll st'.evdev_devices with
    | (as, none) => { state := st', actions := as, result := .ok () }
    | (as, some e) => { state := st', actions := as, result := .exc e }
  else
    { state := st', actions := [], result := .ok () }

/-- Python `str(e)` as the service-call surface reports a caught
exception. -/
def strOfErr : PyErr → String
  | .keyError k => String.append (String.append "'" k) "'"
  | .attributeError a => String.append "object has no attribute " a
  | .valueError m => m
  | .osError m => m
  | .indexError => "list index out of range"

/-- `EvdevPlugin.call_plugin_service` (lines 53-85).  `configType` is
`self.config['type']` (`none` when that key is missing, in which case the
`except` handler itself raises `KeyError('type')`).  When `'device'` is
absent from `kwargs` the method logs a warning and raises
`ValueError("Device not provided, please provide Topic for Service Call")`. -/
def call_plugin_service (openOk : Bool) (configType : Option String)
    (st : PluginState) (service : String) (kwargs : Dict) :
    MethodResult PyVal :=
  match dictLookup kwargs "device" with
  | some device =>
    let inner : MethodResult PyVal :=
      if service = "subscribe" then
        let r := subscribe openOk st device
        { state := r.state
          actions := r.actions
          result :=
            match r.result with
            | .ok (some f) => .ok f
            | .ok none => .ok PyVal.pnone
            | .exc e => .exc e }
      else if service = "unsubscribe" then
        let r := unsubscribe st device
        { state := r.state
          actions := r.actions
          result :=
            match r.result with
            | .ok _ => .ok PyVal.pnone
            | .exc e => .exc e }
      else
        { state := st
          actions := [.logWarning "wrong_service"]
          result := .ok (PyVal.str "ERR") }
    match inner.result with
    | .ok v => { inner with result := .ok v }
    | .exc e =>
      match configType with
      | none => { inner with result := .exc (.keyError "type") }
      | some t =>
        if t = "evdev" then { inner with result := .ok (PyVal.str (strOfErr e)) }
        else { inner with result := .ok (PyVal.str "ERR") }
  | none =>
    { state := st
      actions := [.logWarning "device_not_provided"]
      result := .exc (.valueError "Device not provided, please provide Topic for Service Call") }

/-- Structural deep copy of a value (`copy.deepcopy` is value-preserving). -/
def deepcopyVal : PyVal → PyVal
  | .str s => .str s
  | .int n => .int n
  | .pnone => .pnone
  | .future n => .future n
  | .inputDevice d => .inputDevice (deepcopyVal d)

/-- Structural deep copy of a whole table. -/
def deepcopyTable : Dict → Dict
  | [] => []
  | (k, v) :: rest => (k, deepcopyVal v) :: deepcopyTable rest

/-- `EvdevPlugin.set_plugin_state` (lines 186-188): `self.state[entity] = state`. -/
def set_plugin_state (tbl : Dict) (entity : String) (v : PyVal) : Dict :=
  dictInsert tbl entity v

/-- `EvdevPlugin.get_complete_state` (lines 123-125):
`copy.deepcopy(self.state)`. -/
def get_complete_state (tbl : Dict) : Dict :=
  deepcopyTable tbl

/-- The metadata dict built in `__init__` (lines 36-41), as a record. -/
structure PluginMeta where
  version : String
  event_name : String
  topics : List PyVal
  grab : Bool
deriving DecidableEq, Repr

/-- `self.evdev_metadata = \x7b"version": "1.0", ...\x7d`. -/
def evdev_metadata (event_name : String) (devices : List PyVal) (grab : Bool) :
    PluginMeta :=
  { version := "1.0", event_name := event_name, topics := devices, grab := grab }

/-- The key-tagged shape of one scripted event dict, by which of the keys
`"state"`, `"event"`, `"disconnect"`, `"connect"` it carries (`otherK` for
none of them: the dispatch `if/elif` chain falls through and nothing is
emitted). -/
inductive EventKind where
  | stateK : String → PyVal → EventKind
  | eventK : String → Dict → EventKind
  | disconnectK : EventKind
  | connectK : EventKind
  | otherK : EventKind
deriving DecidableEq, Repr

/-- One scripted event: its `"offset"` delay and its kind. -/
structure EventSpec where
  offset : Nat
  kind : EventKind
deriving DecidableEq, Repr

/-- The configuration keys `get_updates` reads: `config["sequence"]["events"]`,
the optional `config["sequence"]["loop"]`, and the optional top-level
`config["loop"]` (line 141 reads the latter). -/
structure SeqConfig where
  events : List EventSpec
  seq_loop : Option Int
  top_loop : Option Int
deriving DecidableEq, Repr

/-- What line 138 actually passes to `notify_plugin_started` for the
metadata and state arguments.  `get_metadata` and `get_complete_state` are
`async def`s (lines 123-128); calling one without `await` yields a
coroutine object, not the method's value — `coroutine m` is the unawaited
coroutine object of the method named `m`.  The `metaValue`/`tableValue`
forms are what awaiting those coroutines would produce. -/
inductive NotifyArg where
  | metaValue : PluginMeta → NotifyArg
  | tableValue : Dict → NotifyArg
  | coroutine : String → NotifyArg
deriving DecidableEq, Repr

/-- The externally observable actions of the playback sequencer, in
dispatch order. -/
inductive SeqAction where
  | notifyStarted : NotifyArg → NotifyArg → SeqAction
  | sleepA : Nat → SeqAction
  | stateChanged : String → PyVal → PyVal → SeqAction
  | genericEvent : String → Dict → SeqAction
  | notifyStopped : SeqAction
  | notifyConnected : SeqAction
deriving DecidableEq, Repr

/-- How a (partial, fuel-bounded) run of `get_updates` ended: returned
normally, ran out of modelling fuel, or raised. -/
inductive RunOutcome where
  | finished : RunOutcome
  | outOfFuel : RunOutcome
  | excn : PyErr → RunOutcome
deriving DecidableEq, Repr

/-- The end-of-sequence test at line 141:
`self.current_event >= len(events) and ("loop" in sequence and
self.config["loop"] == 0 or "loop" not in sequence)`.  Note the misplaced
lookup: when `"loop"` is a key of the sequence the code reads the TOP-LEVEL
`config["loop"]`, raising `KeyError("loop")` when that key is absent. -/
def parkCheck (cfg : SeqConfig) (cursor : Nat) : PyResult Bool :=
  if cfg.events.length ≤ cursor then
    match cfg.seq_loop with
    | some _ =>
      match cfg.top_loop with
      | none => .exc (.keyError "loop")
      | some v => if v = 0 then .ok true else .ok false
    | none => .ok true
  else
    .ok false

/-- Dispatch of one scripted event (lines 148-180): the emitted actions and
the state table afterwards. -/
def dispatch (ev : EventSpec) (tbl : Dict) : PyResult (List SeqAction × Dict) :=
  match ev.kind with
  | .stateK entity newstate =>
    match dictGetItem tbl entity with
    | .exc e => .exc e
    | .ok old =>
      .ok ([SeqAction.stateChanged entity newstate old],
           set_plugin_state tbl entity newstate)
  | .eventK ty data => .ok ([SeqAction.genericEvent ty data], tbl)
  | .disconnectK => .ok ([SeqAction.notifyStopped], tbl)
  | .connectK => .ok ([SeqAction.notifyConnected], tbl)
  | .otherK => .ok ([], tbl)

/-- The parked inner loop (lines 142-144): `while not self.stopping:
await asyncio.sleep(1)`, then `return None`.  `stopSig t` is the value of
the `stopping` flag at its `t`-th read. -/
def parkLoop : Nat → (Nat → Bool) → Nat → List SeqAction × RunOutcome
  | 0, _, _ => ([], .outOfFuel)
  | n + 1, stopSig, t =>
    if stopSig t then ([], .finished)
    else
      let (acts, out) := parkLoop n stopSig (t + 1)
      (SeqAction.sleepA 1 :: acts, out)

/-- The main `while not self.stopping` loop of `get_updates`
(lines 139-184).  The cursor is the `self.current_event` attribute: it is
`none` while unassigned, and its read at the start of line 141 then raises
`AttributeError("current_event")` — before the park check, any sleep or any
dispatch.  With an assigned cursor the body is: park check, sleep for the
event's offset, dispatch, cursor advance, and the loop-back to zero at
lines 183-184 when the sequence's own `loop` flag equals 1. -/
def mainLoop : Nat → SeqConfig → Dict → Option Nat → (Nat → Bool) → Nat →
    List SeqAction × RunOutcome
  | 0, _, _, _, _, _ => ([], .outOfFuel)
  | n + 1, cfg, tbl, cursorAttr, stopSig, t =>
    if stopSig t then ([], .finished)
    else
      match cursorAttr with
      | none => ([], .excn (.attributeError "current_event"))
      | some cursor =>
        match parkCheck cfg cursor with
        | .exc e => ([], .excn e)
        | .ok true => parkLoop n stopSig (t + 1)
        | .ok false =>
          match cfg.events.get? cursor with
          | none => ([], .excn .indexError)
          | some ev =>
            match dispatch ev tbl with
            | .exc e => ([SeqAction.sleepA ev.offset], .excn e)
            | .ok (acts, tbl') =>
              let c1 := cursor + 1
              let c2 :=
                if cfg.events.length ≤ c1 ∧ cfg.seq_loop = some 1 then 0 else c1
              let (rest, out) := mainLoop n cfg tbl' (some c2) stopSig (t + 1)
              (SeqAction.sleepA ev.offset :: acts ++ rest, out)

/-- The value of the `current_event` attribute when `get_updates` starts:
`__init__` (lines 11-43) never assigns it, and nothing else in the plugin
does before `get_updates` runs, so the attribute is absent. -/
def initial_current_event : Option Nat := none

/-- `EvdevPlugin.get_updates` (lines 137-184): line 138 first awaits
`notify_plugin_started(self.name, self.namespace, self.get_metadata(),
self.get_complete_state(), True)` — passing the two coroutine objects
unawaited, since both callees are `async def`s — then runs the sequencing
loop.  The run is bounded by `fuel` loop iterations; `cursorAttr` is the
`current_event` attribute (absent when `none`); `stopSig` gives the value
of `stopping` at each successive read. -/
def get_updates (fuel : Nat) (cfg : SeqConfig) (tbl : Dict)
    (cursorAttr : Option Nat) (stopSig : Nat → Bool) :
    List SeqAction × RunOutcome :=
  (SeqAction.notifyStarted (NotifyArg.coroutine "get_metadata")
        (NotifyArg.coroutine "get_complete_state") ::
      (mainLoop fuel cfg tbl cursorAttr stopSig 0).1,
   (mainLoop fuel cfg tbl cursorAttr stopSig 0).2)

/-- A concrete device identifier for the evaluation scenarios. -/
def demoDevice : PyVal := PyVal.str "/dev/input0"

/-- Subscribing `demoDevice` on a freshly initialised plugin (no configured
devices, grab enabled — the default). -/
def demoSub : MethodResult (Option PyVal) := subscribe true (initState [] true) demoDevice

/-- Looking a key up right after inserting it yields the inserted value. -/
theorem dictLookup_dictInsert_self (d : Dict) (k : String) (v : PyVal) :
    dictLookup (dictInsert d k v) k = some v := by
  induction d with
  | nil => simp [dictInsert, dictLookup]
  | cons p rest ih =>
    obtain ⟨k', w⟩ := p
    by_cases h : k' = k
    · simp [dictInsert, dictLookup, h]
    · simp [dictInsert, dictLookup, h, ih]

/-- Deep copy preserves every value. -/
theorem deepcopyVal_id (v : PyVal) : deepcopyVal v = v := by
  induction v with
  | str s => rfl
  | int n => rfl
  | pnone => rfl
  | future n => rfl
  | inputDevice d ih => simp [deepcopyVal, ih]

/-- Deep copy of a table is value-equal to the table. -/
theorem deepcopyTable_id (d : Dict) : deepcopyTable d = d := by
  induction d with
  | nil => rfl
  | cons p rest ih =>
    obtain ⟨k, v⟩ := p
    simp [deepcopyTable, deepcopyVal_id, ih]

/-- Claim C1: after `subscribe` stores a session for `"/dev/input0"` (under
dict key `"future"`), `unsubscribe` on that very device does not cancel the
stored session object: it looks up the different key `"my_future"`, raises
`KeyError("my_future")`, and performs no cancellation and no grab release —
refuting "the stored session object and the cancelled session object are
the same" on this code. -/
theorem c1_unsubscribe_key_mismatch :
    demoSub.state.evdev_device_to_future_map =
      [(demoDevice,
        [("future", PyVal.future 0),
         ("evdev_device", PyVal.inputDevice demoDevice)])] ∧
    (unsubscribe demoSub.state demoDevice).result =
      PyResult.exc (PyErr.keyError "my_future") ∧
    (unsubscribe demoSub.state demoDevice).actions = [] := by
  decide

/-- Claim C2: the sequencer never reaches the claimed end-of-list
behaviour.  On a one-event sequence whose own `loop` flag is `0`, the very
first loop iteration raises `AttributeError("current_event")` — the
`current_event` attribute is never assigned anywhere in the plugin — right
after the startup notification: no event is dispatched, nothing parks, no
stop-flag poll sleep is emitted and the cursor never loops back.  (Line 141
also reads the top-level `config["loop"]` instead of the sequence's flag,
modelled in `parkCheck`, so even an assigned cursor would abort with
`KeyError("loop")` on this configuration.) -/
theorem c2_uninitialized_cursor :
    get_updates 5 ⟨[⟨0, EventKind.eventK "test_event" []⟩], some 0, none⟩ []
        initial_current_event (fun _ => false) =
      ([SeqAction.notifyStarted (NotifyArg.coroutine "get_metadata")
          (NotifyArg.coroutine "get_complete_state")],
       RunOutcome.excn (PyErr.attributeError "current_event")) ∧
    parkCheck ⟨[⟨0, EventKind.eventK "test_event" []⟩], some 0, none⟩ 1 =
      PyResult.exc (PyErr.keyError "loop") := by
  exact ⟨rfl, rfl⟩

/-- Claim C3: for `d = "/dev/input0"`, `subscribe(d)` succeeds; a second
`subscribe(d)` returns `None` without creating a second session (state
unchanged); but the following `unsubscribe(d)` raises
`KeyError("my_future")` instead of succeeding, and a further
`unsubscribe(d)` takes the not-subscribed warning branch. -/
theorem c3_subscribe_unsubscribe_sequence :
    demoSub.result = PyResult.ok (some (PyVal.future 0)) ∧
    (subscribe true demoSub.state demoDevice).result = PyResult.ok none ∧
    (subscribe true demoSub.state demoDevice).state = demoSub.state ∧
    (unsubscribe demoSub.state demoDevice).result =
      PyResult.exc (PyErr.keyError "my_future") ∧
    (unsubscribe (unsubscribe demoSub.state demoDevice).state demoDevice).result =
      PyResult.ok () ∧
    (unsubscribe (unsubscribe demoSub.state demoDevice).state demoDevice).actions =
      [Action.logWarning "not_subscribed"] := by
  decide

/-- Claim C4: subscribing a fresh device with the grab option enabled opens
the device, starts the session task, registers the session and returns the
future — but performs no grab acquisition at all; and when the open fails
the underlying I/O error propagates and the registry is left unchanged. -/
theorem c4_subscribe_no_grab :
    (initState [] true).evdev_grab = true ∧
    demoSub.result = PyResult.ok (some (PyVal.future 0)) ∧
    demoSub.actions = [Action.openDevice demoDevice, Action.startTask 0] ∧
    List.filter isGrab demoSub.actions = [] ∧
    demoSub.state.evdev_devices = [demoDevice] ∧
    (subscribe false (initState [] true) demoDevice).result =
      PyResult.exc (PyErr.osError "failed to open device") ∧
    (subscribe false (initState [] true) demoDevice).state = initState [] true := by
  decide

/-- Claim C5: the startup notification is indeed the first trace element
of every run (here the only one, the uninitialised cursor aborting the
loop), but its metadata and state arguments are the unawaited coroutine
objects of `get_metadata` and `get_complete_state` — line 138 omits the
`await`s — and a notification carrying coroutine objects is distinct from
one carrying a metadata value and a snapshot value, for every such pair of
values: the claim's "with the plugin's metadata value and an initial State
Table snapshot value as arguments" fails on this code. -/
theorem c5_handshake_unawaited_coroutines :
    (get_updates 5 ⟨[⟨0, EventKind.stateK "e1" (PyVal.str "on")⟩], some 1, none⟩
        [("e1", PyVal.str "off")] initial_current_event (fun _ => false)).1 =
      [SeqAction.notifyStarted (NotifyArg.coroutine "get_metadata")
        (NotifyArg.coroutine "get_complete_state")] ∧
    (∀ (m : PluginMeta) (s : Dict),
      SeqAction.notifyStarted (NotifyArg.coroutine "get_metadata")
          (NotifyArg.coroutine "get_complete_state") ≠
        SeqAction.notifyStarted (NotifyArg.metaValue m) (NotifyArg.tableValue s)) := by
  constructor
  · rfl
  · intro m s
    simp

/-- Claim C6: dispatching a `StateChange` scripted event for entity `e`
with new value `v` raises `KeyError(e)` when `e` was never initialised in
the state table; otherwise it emits exactly one `state_changed` envelope
carrying the entity, the old value and the new value, and overwrites the
table entry with `v`. -/
theorem c6_state_change_dispatch (ev : EventSpec) (tbl : Dict) (e : String)
    (v : PyVal) (hk : ev.kind = EventKind.stateK e v) :
    (dictLookup tbl e = none → dispatch ev tbl = PyResult.exc (PyErr.keyError e)) ∧
    (∀ old, dictLookup tbl e = some old →
      dispatch ev tbl =
        PyResult.ok ([SeqAction.stateChanged e v old], set_plugin_state tbl e v)) := by
  obtain ⟨off, k⟩ := ev
  simp only at hk
  subst hk
  constructor
  · intro h
    simp [dispatch, dictGetItem, h]
  · intro old h
    simp [dispatch, dictGetItem, h]

/-- Witness for C6 at a concrete event and table. -/
theorem c6_state_change_dispatch_w :
    dispatch ⟨0, EventKind.stateK "e1" (PyVal.str "on")⟩ [("e1", PyVal.str "off")] =
      PyResult.ok ([SeqAction.stateChanged "e1" (PyVal.str "on") (PyVal.str "off")],
        set_plugin_state [("e1", PyVal.str "off")] "e1" (PyVal.str "on")) :=
  (c6_state_change_dispatch ⟨0, EventKind.stateK "e1" (PyVal.str "on")⟩
      [("e1", PyVal.str "off")] "e1" (PyVal.str "on") rfl).2 (PyVal.str "off") (by decide)

/-- Claim C7: with the grab option enabled and one subscribed device,
`stop()` sets the stopping flag but then calls `ungrab()` on the device
identifier string stored in `evdev_devices`, raising `AttributeError`; it
performs no action at all — in particular it cancels no session future and
releases no grab, so the running session survives. -/
theorem c7_stop_no_cancel :
    (stop demoSub.state).state.stopping = true ∧
    (stop demoSub.state).result = PyResult.exc (PyErr.attributeError "ungrab") ∧
    (stop demoSub.state).actions = [] := by
  decide

/-- Claim C8: state-table round trip and snapshot: `set(e, v)` followed by
a lookup of `e` returns `v`, and the snapshot `get_complete_state` is
value-equal to the table it copies (so, values being immutable in the
model, a previously returned snapshot is never changed by a later set). -/
theorem c8_state_table (tbl : Dict) (e : String) (v : PyVal) :
    dictLookup (set_plugin_state tbl e v) e = some v ∧
    get_complete_state tbl = tbl ∧
    get_complete_state (set_plugin_state tbl e v) = set_plugin_state tbl e v :=
  ⟨dictLookup_dictInsert_self tbl e v, deepcopyTable_id tbl,
   deepcopyTable_id (set_plugin_state tbl e v)⟩

/-- Counterexample to claim C9 as stated: a `subscribe` service call with
no `device` in the kwargs does not return an error value — the call raises
(a `ValueError` escapes the service-call surface). -/
theorem c9_counterexample :
    resultReturned (call_plugin_service true (some "evdev") (initState [] true)
        "subscribe" []).result = false := by
  rfl

/-- Claim C9 (amended): whenever `device` is absent from the kwargs, the
service call fails by raising `ValueError("Device not provided, please
provide Topic for Service Call")` — a descriptive error, but delivered as
an escaping exception, with the plugin state left unchanged. -/
theorem c9_missing_device_raises (openOk : Bool) (configType : Option String)
    (st : PluginState) (service : String) (kwargs : Dict)
    (h : dictLookup kwargs "device" = none) :
    (call_plugin_service openOk configType st service kwargs).result =
      PyResult.exc (PyErr.valueError "Device not provided, please provide Topic for Service Call") ∧
    (call_plugin_service openOk configType st service kwargs).state = st := by
  simp [call_plugin_service, h]

/-- Witness for the amended C9 at a concrete call. -/
theorem c9_missing_device_raises_w :
    (call_plugin_service true (some "evdev") (initState [] true) "unsubscribe" []).result =
      PyResult.exc (PyErr.valueError "Device not provided, please provide Topic for Service Call") :=
  (c9_missing_device_raises true (some "evdev") (initState [] true) "unsubscribe" [] rfl).1

/-- Claim C10: for a device listed in the construction-time configuration,
`subscribe` takes the already-subscribed branch — returning `None`, leaving
the state unchanged, opening nothing and starting no task — because
membership is tested against `evdev_devices`; `unsubscribe` then removes it
from that list (without error, via the pop-returned-`None` warning branch),
and only then does `subscribe` take the open-and-register branch. -/
theorem c10_configured_devices (ds : List PyVal) (g ok : Bool) (d : PyVal)
    (h : d ∈ ds) :
    (subscribe ok (initState ds g) d).result = PyResult.ok none ∧
    (subscribe ok (initState ds g) d).state = initState ds g ∧
    (subscribe ok (initState ds g) d).actions = [Action.logWarning "already_subscribed"] ∧
    (unsubscribe (initState ds g) d).result = PyResult.ok () ∧
    (unsubscribe (initState ds g) d).state.evdev_devices = ds.erase d ∧
    (d ∉ ds.erase d →
      (subscribe true (unsubscribe (initState ds g) d).state d).result =
        PyResult.ok (some (PyVal.future 0))) := by
  have hmem : d ∈ (initState ds g).evdev_devices := h
  refine ⟨?_, ?_, ?_, ?_, ?_, ?_⟩
  · simp [subscribe, hmem]
  · simp [subscribe, hmem]
  · simp [subscribe, hmem]
  · simp [unsubscribe, h, initState, mapPop]
  · simp [unsubscribe, h, initState, mapPop]
  · intro hd
    have hstate : (unsubscribe (initState ds g) d).state =
        { evdev_devices := ds.erase d
          evdev_device_to_future_map := []
          evdev_grab := g
          stopping := false
          next_task := 0 } := by
      simp [unsubscribe, h, initState, mapPop]
    rw [hstate]
    simp [subscribe, hd]

/-- Witness for C10 at a concrete configured device. -/
theorem c10_configured_devices_w :
    (subscribe true (initState [demoDevice] true) demoDevice).result = PyResult.ok none :=
  (c10_configured_devices [demoDevice] true true demoDevice (by decide)).1

end Evdev
